import Mathlib

/-!
Shallow embedding of build_lib.py, the staged build orchestrator for the
warp native runtime libraries.

The script is a linear program: parse arguments, set up CUDA and MSVC
paths, optionally check out and build a bundled LLVM/Clang toolchain via
three cmake stages, then compile one or two shared libraries through the
external compile-and-link driver warp.build.build_dll, with the whole
compilation phase wrapped in a single try/except boundary.

The embedding represents the external world (platform, environment
variables, filesystem and child-process results) as a record of oracles,
and the run of the script as a pure function producing the ordered list
of observable events (prints, git operations, cmake invocations,
build_dll invocations) together with a final outcome.  The outcome
distinguishes a sys.exit with a code from an exception that escapes to
the interpreter uncaught (which also terminates the process with a
non-zero status, but prints a traceback rather than the script-level
message).
-/

namespace BuildLib

/-- Operating system family, as distinguished by sys.platform and os.name
in the script (os.name is nt exactly on the win32 family). -/
inductive OsFamily where
  | win32
  | darwin
  | linux
deriving DecidableEq

/-- Parsed command-line arguments: the argparse surface of the script
(lines 18 to 28 of build_lib.py).  Optional string arguments default to
none when not given. -/
structure Args where
  msvcPath : Option String
  sdkPath : Option String
  cudaPath : Option String
  mode : String
  verbose : Bool
  verifyFp : Bool
  fastMath : Bool
  quick : Bool
  buildLlvm : Bool
deriving DecidableEq

/-- Oracles for the external world consulted by the script: the platform,
the environment variables read by find_cuda, the result of the MSVC
environment probe, the existence of the LLVM working copy, the results of
the git clone and of each cmake stage (none means the child process
succeeded, some msg means it raised an exception carrying msg), the
top-level listing of the LLVM install lib directory, and the results of
the two build_dll invocations. -/
structure World where
  platform : OsFamily
  envCudaHome : Option String
  envCudaPath : Option String
  hostCompilerFound : Option String
  llvmProjectExists : Bool
  cloneErr : Option String
  cmakeGenErr : Option String
  cmakeBuildErr : Option String
  cmakeInstallErr : Option String
  installLibs : List String
  clangBuildErr : Option String
  warpBuildErr : Option String
deriving DecidableEq

/-- Python truthiness of an optional string: none and the empty string are
falsy, any other string is truthy. -/
def truthy : Option String → Bool
  | some s => s != ""
  | none => false

/-- Python or on optional strings: the left operand when it is truthy,
otherwise the right operand. -/
def pyOr (a b : Option String) : Option String :=
  if truthy a then a else b

/-- find_cuda from the script (lines 43 to 47): CUDA_HOME or CUDA_PATH
from the environment. -/
def find_cuda (w : World) : Option String :=
  pyOr w.envCudaHome w.envCudaPath

/-- The value assigned to warp.config.cuda_path by lines 51 to 60: on
darwin it is unconditionally None; otherwise the explicit argument when
truthy, else the environment probe. -/
def configCudaPath (args : Args) (w : World) : Option String :=
  if w.platform = OsFamily.darwin then none
  else if truthy args.cudaPath then args.cudaPath
  else find_cuda w

/-- Python str.capitalize: first character upper-cased, the rest
lower-cased. -/
def pyCapitalize (s : String) : String :=
  match s.data with
  | [] => ""
  | c :: cs => String.mk (c.toUpper :: cs.map Char.toLower)

/-- os.path.join restricted to two components, with the posix separator. -/
def joinPath (a b : String) : String := a ++ "/" ++ b

/-- The directory of build_lib.py, modelled as an abstract root. -/
def base_path : String := "."

/-- build_path from line 32. -/
def build_path : String := joinPath base_path "warp"

/-- llvm_project_path from line 80. -/
def llvm_project_path : String := joinPath base_path "external/llvm-project"

/-- llvm_path from line 94. -/
def llvm_path : String := joinPath llvm_project_path "llvm"

/-- llvm_build_path from line 95, parametrised by the build type label. -/
def llvm_build_path (bt : String) : String :=
  joinPath llvm_project_path ("out/build/" ++ bt)

/-- llvm_install_path from line 96, parametrised by the build type label. -/
def llvm_install_path (bt : String) : String :=
  joinPath llvm_project_path ("out/install/" ++ bt)

/-- libpath from line 150: the lib directory of the LLVM install prefix. -/
def libpath (bt : String) : String := joinPath (llvm_install_path bt) "lib"

/-- dll_ext from lines 132 to 138: platform specific shared library
extension. -/
def dll_ext (p : OsFamily) : String :=
  if p = OsFamily.win32 then "dll"
  else if p = OsFamily.darwin then "dylib"
  else "so"

/-- cpp_sources from lines 168 to 178: the fixed ordered source list of
the primary warp library target.  Note that it does not depend on any
argument; in particular cutlass_gemm.cpp is always listed. -/
def cpp_sources : List String :=
  ["native/warp.cpp",
   "native/crt.cpp",
   "native/cuda_util.cpp",
   "native/mesh.cpp",
   "native/hashgrid.cpp",
   "native/sort.cpp",
   "native/volume.cpp",
   "native/marching.cpp",
   "native/cutlass_gemm.cpp"]

/-- warp_cpp_paths from line 179. -/
def warp_cpp_paths : List String :=
  cpp_sources.map (fun cpp => joinPath build_path cpp)

/-- The full path of the accelerated-kernel (CUTLASS) source module. -/
def cutlass_path : String := joinPath build_path "native/cutlass_gemm.cpp"

/-- One invocation of the external compile-and-link driver
warp.build.build_dll, with the keyword arguments the script passes.  The
clang invocation passes libs and no quick argument; the warp invocation
passes quick and no libs argument; absent keyword arguments are none. -/
structure DllRequest where
  dllPath : String
  cppPaths : List String
  cuPath : Option String
  libs : Option (List String)
  mode : String
  verifyFp : Bool
  fastMath : Bool
  useCache : Bool
  quick : Option Bool
deriving DecidableEq

/-- The three stages of the external cmake build system. -/
inductive CmakeStage where
  | configure
  | build
  | install
deriving DecidableEq

/-- Observable events of a run, in program order: prints, git operations,
the MSVC environment probe and explicit-compiler registration, cmake
child-process invocations, and compile-and-link driver invocations. -/
inductive Event where
  | printArgs (args : Args)
  | printMsg (msg : String)
  | gitClone (url toPath branch : String) (depth : Nat)
  | gitOpen (path : String)
  | setMsvc (msvcPath sdkPath : String)
  | findHostCompilerProbe
  | cmakeCall (stage : CmakeStage) (argv : List String)
  | buildDll (req : DllRequest)
deriving DecidableEq

/-- Final outcome of a run: an explicit exit with a status code (sys.exit
or normal completion, which exits 0), or an exception escaping to the
interpreter uncaught, carrying its message. -/
inductive Outcome where
  | exit (code : Nat)
  | uncaught (msg : String)
deriving DecidableEq

/-- A whole run: its ordered event trace and its outcome. -/
structure RunResult where
  events : List Event
  outcome : Outcome
deriving DecidableEq

/-- The distinct error printed at line 75 when no MSVC compiler is found. -/
def msvcErrorMsg : String := "Warp build error: Could not find MSVC compiler"

/-- The non-fatal warning printed at line 182 when no CUDA toolchain is
found. -/
def cudaWarningMsg : String :=
  "Warning: CUDA toolchain not found, building without CUDA support"

/-- The message printed by the top-level failure boundary at line 202. -/
def boundaryMsg (m : String) : String := "Warp build error: " ++ m

/-- Lines 64 to 76: on the win32 family, either register the explicitly
given MSVC and SDK pair, or probe the environment; if the probe finds
nothing truthy, print a distinct error and exit 1.  On other platforms
this block does nothing.  The second component is some outcome when the
script terminates here. -/
def msvcPhase (args : Args) (w : World) : List Event × Option Outcome :=
  if w.platform = OsFamily.win32 then
    if truthy args.sdkPath && truthy args.msvcPath then
      ([Event.setMsvc (args.msvcPath.getD "") (args.sdkPath.getD "")], none)
    else if truthy w.hostCompilerFound then
      ([Event.findHostCompilerProbe], none)
    else
      ([Event.findHostCompilerProbe, Event.printMsg msvcErrorMsg],
       some (Outcome.exit 1))
  else ([], none)

/-- cmake_gen from lines 98 to 121: the configure stage argv, with the
build type label interpolated. -/
def cmake_gen (bt : String) : List String :=
  ["cmake", "-S", llvm_path,
   "-B", llvm_build_path bt,
   "-G", "Ninja",
   "-D", "CMAKE_BUILD_TYPE=" ++ bt,
   "-D", "LLVM_USE_CRT_RELEASE=MT",
   "-D", "LLVM_USE_CRT_DEBUG=MTd",
   "-D", "LLVM_TARGETS_TO_BUILD=X86",
   "-D", "LLVM_ENABLE_PROJECTS=clang",
   "-D", "LLVM_ENABLE_ZLIB=FALSE",
   "-D", "LLVM_ENABLE_ZSTD=FALSE",
   "-D", "LLVM_BUILD_LLVM_C_DYLIB=FALSE",
   "-D", "LLVM_BUILD_RUNTIME=FALSE",
   "-D", "LLVM_BUILD_RUNTIMES=FALSE",
   "-D", "LLVM_BUILD_TOOLS=FALSE",
   "-D", "LLVM_BUILD_UTILS=FALSE",
   "-D", "LLVM_INCLUDE_BENCHMARKS=FALSE",
   "-D", "LLVM_INCLUDE_DOCS=FALSE",
   "-D", "LLVM_INCLUDE_EXAMPLES=FALSE",
   "-D", "LLVM_INCLUDE_RUNTIMES=FALSE",
   "-D", "LLVM_INCLUDE_TESTS=FALSE",
   "-D", "LLVM_INCLUDE_TOOLS=TRUE",
   "-D", "LLVM_INCLUDE_UTILS=FALSE",
   "-D", "CMAKE_INSTALL_PREFIX=" ++ llvm_install_path bt]

/-- cmake_build from line 124. -/
def cmake_build_argv (bt : String) : List String :=
  ["cmake", "--build", llvm_build_path bt]

/-- cmake_install from line 127. -/
def cmake_install_argv (bt : String) : List String :=
  ["cmake", "--install", llvm_build_path bt]

/-- The configure stage invocation event. -/
def cmakeConfigureEv (args : Args) : Event :=
  Event.cmakeCall CmakeStage.configure (cmake_gen (pyCapitalize args.mode))

/-- The build stage invocation event. -/
def cmakeBuildEv (args : Args) : Event :=
  Event.cmakeCall CmakeStage.build (cmake_build_argv (pyCapitalize args.mode))

/-- The install stage invocation event. -/
def cmakeInstallEv (args : Args) : Event :=
  Event.cmakeCall CmakeStage.install (cmake_install_argv (pyCapitalize args.mode))

/-- The shallow single-branch pinned checkout from line 84. -/
def cloneEv : Event :=
  Event.gitClone "https://github.com/llvm/llvm-project.git" llvm_project_path
    "llvmorg-15.0.7" 1

/-- Lines 122 to 128: the three cmake stages run by subprocess.check_call
in strict sequence; a non-zero exit raises CalledProcessError, which at
this point of the script is not inside any try block, so it escapes
uncaught and no later stage runs. -/
def llvmStages (args : Args) (w : World) : List Event × Option Outcome :=
  match w.cmakeGenErr with
  | some m => ([cmakeConfigureEv args], some (Outcome.uncaught m))
  | none =>
    match w.cmakeBuildErr with
    | some m => ([cmakeConfigureEv args, cmakeBuildEv args],
                 some (Outcome.uncaught m))
    | none =>
      match w.cmakeInstallErr with
      | some m => ([cmakeConfigureEv args, cmakeBuildEv args, cmakeInstallEv args],
                   some (Outcome.uncaught m))
      | none => ([cmakeConfigureEv args, cmakeBuildEv args, cmakeInstallEv args],
                 none)

/-- Lines 79 to 128: when build_llvm is set, clone the pinned LLVM tree if
its working copy does not exist (opening it as-is when it does), then run
the three cmake stages.  A clone failure also escapes uncaught. -/
def llvmPhase (args : Args) (w : World) : List Event × Option Outcome :=
  if args.buildLlvm then
    if w.llvmProjectExists then
      (Event.gitOpen llvm_project_path :: (llvmStages args w).1,
       (llvmStages args w).2)
    else
      match w.cloneErr with
      | some m => ([cloneEv], some (Outcome.uncaught m))
      | none => (cloneEv :: (llvmStages args w).1, (llvmStages args w).2)
  else ([], none)

/-- Line 155: the LIBPATH linker directive pointing at the LLVM install
lib directory. -/
def libpathDirective (args : Args) : String :=
  "/LIBPATH:\"" ++ libpath (pyCapitalize args.mode) ++ "\""

/-- Lines 150 to 155: the extra-library list of the clang target: every
file at the top level of the install lib directory, then Version.lib,
then the LIBPATH directive. -/
def clang_libs (args : Args) (w : World) : List String :=
  w.installLibs ++ ["Version.lib", libpathDirective args]

/-- The build_dll invocation for the clang wrapper library, lines 157 to
165. -/
def clangReq (args : Args) (w : World) : DllRequest :=
  { dllPath := joinPath build_path ("bin/clang." ++ dll_ext w.platform)
    cppPaths := [joinPath build_path "clang/clang.cpp"]
    cuPath := none
    libs := some (clang_libs args w)
    mode := args.mode
    verifyFp := args.verifyFp
    fastMath := args.fastMath
    useCache := false
    quick := none }

/-- Lines 181 to 185: the primary target GPU-kernel source is present
exactly when warp.config.cuda_path is not None. -/
def warp_cu_path (args : Args) (w : World) : Option String :=
  match configCudaPath args w with
  | none => none
  | some _ => some (joinPath build_path "native/warp.cu")

/-- The build_dll invocation for the primary warp library, lines 189 to
197. -/
def warpReq (args : Args) (w : World) : DllRequest :=
  { dllPath := joinPath build_path ("bin/warp." ++ dll_ext w.platform)
    cppPaths := warp_cpp_paths
    cuPath := warp_cu_path args w
    libs := none
    mode := args.mode
    verifyFp := args.verifyFp
    fastMath := args.fastMath
    useCache := false
    quick := some args.quick }

/-- Lines 167 to 197 inside the try block: print the CUDA warning when no
CUDA toolchain was found, then invoke the driver on the primary target; a
driver failure is caught by the boundary, which prints the message and
exits 1; otherwise the script completes and exits 0. -/
def warpStep (args : Args) (w : World) : List Event × Outcome :=
  match configCudaPath args w, w.warpBuildErr with
  | none, some m =>
      ([Event.printMsg cudaWarningMsg, Event.buildDll (warpReq args w),
        Event.printMsg (boundaryMsg m)], Outcome.exit 1)
  | none, none =>
      ([Event.printMsg cudaWarningMsg, Event.buildDll (warpReq args w)],
       Outcome.exit 0)
  | some _, some m =>
      ([Event.buildDll (warpReq args w), Event.printMsg (boundaryMsg m)],
       Outcome.exit 1)
  | some _, none =>
      ([Event.buildDll (warpReq args w)], Outcome.exit 0)

/-- Lines 141 to 205: the try block.  When build_llvm is set the clang
wrapper library is compiled first; a failure there is caught by the
boundary (printed, exit 1) and the primary target is not attempted.
Otherwise the primary target follows. -/
def tryPhase (args : Args) (w : World) : List Event × Outcome :=
  if args.buildLlvm then
    match w.clangBuildErr with
    | some m =>
        ([Event.buildDll (clangReq args w), Event.printMsg (boundaryMsg m)],
         Outcome.exit 1)
    | none =>
        (Event.buildDll (clangReq args w) :: (warpStep args w).1,
         (warpStep args w).2)
  else warpStep args w

/-- The whole script: print the parsed arguments, set up the CUDA path
(pure), run the MSVC block, then the LLVM bootstrap block, then the try
block around compilation.  Termination inside an earlier block truncates
the trace there. -/
def run (args : Args) (w : World) : RunResult :=
  match (msvcPhase args w).2 with
  | some out => { events := Event.printArgs args :: (msvcPhase args w).1
                  outcome := out }
  | none =>
    match (llvmPhase args w).2 with
    | some out =>
        { events := Event.printArgs args ::
            ((msvcPhase args w).1 ++ (llvmPhase args w).1)
          outcome := out }
    | none =>
        { events := Event.printArgs args ::
            ((msvcPhase args w).1 ++ (llvmPhase args w).1 ++ (tryPhase args w).1)
          outcome := (tryPhase args w).2 }

/-- The cmake stages invoked during a trace, in order. -/
def cmakeStages (evs : List Event) : List CmakeStage :=
  evs.filterMap fun e =>
    match e with
    | Event.cmakeCall s _ => some s
    | _ => none

/-- The compile-and-link driver invocations of a trace, in order. -/
def dllRequests (evs : List Event) : List DllRequest :=
  evs.filterMap fun e =>
    match e with
    | Event.buildDll r => some r
    | _ => none

/-- Whether an event is a plain string print. -/
def isPrintMsgB (e : Event) : Bool :=
  match e with
  | Event.printMsg _ => true
  | _ => false

/-- The checkout events of a trace. -/
def cloneEvents (evs : List Event) : List Event :=
  evs.filter fun e =>
    match e with
    | Event.gitClone _ _ _ _ => true
    | _ => false

/-- Exhaustive characterization of the MSVC block. -/
theorem msvcPhase_cases (args : Args) (w : World) :
    msvcPhase args w = ([], none) ∨
    msvcPhase args w =
      ([Event.setMsvc (args.msvcPath.getD "") (args.sdkPath.getD "")], none) ∨
    msvcPhase args w = ([Event.findHostCompilerProbe], none) ∨
    msvcPhase args w =
      ([Event.findHostCompilerProbe, Event.printMsg msvcErrorMsg],
       some (Outcome.exit 1)) := by
  unfold msvcPhase
  split
  · split
    · right; left; rfl
    · split
      · right; right; left; rfl
      · right; right; right; rfl
  · left; rfl

/-- The MSVC block invokes no cmake stage. -/
theorem cmakeStages_msvcPhase (args : Args) (w : World) :
    cmakeStages (msvcPhase args w).1 = [] := by
  rcases msvcPhase_cases args w with h | h | h | h <;> rw [h] <;> rfl

/-- The MSVC block invokes the compile-and-link driver on nothing. -/
theorem dllRequests_msvcPhase (args : Args) (w : World) :
    dllRequests (msvcPhase args w).1 = [] := by
  rcases msvcPhase_cases args w with h | h | h | h <;> rw [h] <;> rfl

/-- The MSVC block performs no checkout. -/
theorem cloneEvents_msvcPhase (args : Args) (w : World) :
    cloneEvents (msvcPhase args w).1 = [] := by
  rcases msvcPhase_cases args w with h | h | h | h <;> rw [h] <;> rfl

/-- When the MSVC block does not terminate the script, it prints nothing. -/
theorem msvcPhase_no_prints (args : Args) (w : World)
    (h : (msvcPhase args w).2 = none) :
    (msvcPhase args w).1.filter isPrintMsgB = [] := by
  rcases msvcPhase_cases args w with hc | hc | hc | hc <;> rw [hc] <;>
    first
      | rfl
      | (rw [hc] at h; exact absurd h (by simp))

/-- Exhaustive characterization of the cmake stage sequence. -/
theorem llvmStages_cases (args : Args) (w : World) :
    (∃ m, w.cmakeGenErr = some m ∧
      llvmStages args w = ([cmakeConfigureEv args], some (Outcome.uncaught m))) ∨
    (∃ m, w.cmakeGenErr = none ∧ w.cmakeBuildErr = some m ∧
      llvmStages args w =
        ([cmakeConfigureEv args, cmakeBuildEv args], some (Outcome.uncaught m))) ∨
    (∃ m, w.cmakeGenErr = none ∧ w.cmakeBuildErr = none ∧
      w.cmakeInstallErr = some m ∧
      llvmStages args w =
        ([cmakeConfigureEv args, cmakeBuildEv args, cmakeInstallEv args],
         some (Outcome.uncaught m))) ∨
    (w.cmakeGenErr = none ∧ w.cmakeBuildErr = none ∧ w.cmakeInstallErr = none ∧
      llvmStages args w =
        ([cmakeConfigureEv args, cmakeBuildEv args, cmakeInstallEv args],
         none)) := by
  unfold llvmStages
  rcases hg : w.cmakeGenErr with _ | m
  · rcases hb : w.cmakeBuildErr with _ | m
    · rcases hi : w.cmakeInstallErr with _ | m
      · right; right; right; exact ⟨rfl, rfl, rfl, rfl⟩
      · right; right; left; exact ⟨m, rfl, rfl, rfl, rfl⟩
    · right; left; exact ⟨m, rfl, rfl, rfl⟩
  · left; exact ⟨m, rfl, rfl⟩

/-- Exhaustive characterization of the LLVM bootstrap block. -/
theorem llvmPhase_cases (args : Args) (w : World) :
    (args.buildLlvm = false ∧ llvmPhase args w = ([], none)) ∨
    (args.buildLlvm = true ∧ w.llvmProjectExists = false ∧
      (∃ m, w.cloneErr = some m ∧
        llvmPhase args w = ([cloneEv], some (Outcome.uncaught m)))) ∨
    (args.buildLlvm = true ∧ w.llvmProjectExists = false ∧ w.cloneErr = none ∧
      llvmPhase args w =
        (cloneEv :: (llvmStages args w).1, (llvmStages args w).2)) ∨
    (args.buildLlvm = true ∧ w.llvmProjectExists = true ∧
      llvmPhase args w =
        (Event.gitOpen llvm_project_path :: (llvmStages args w).1,
         (llvmStages args w).2)) := by
  unfold llvmPhase
  rcases hb : args.buildLlvm
  · left; exact ⟨rfl, rfl⟩
  · rcases he : w.llvmProjectExists
    · rcases hc : w.cloneErr with _ | m
      · right; right; left; exact ⟨rfl, rfl, rfl, by simp⟩
      · right; left; exact ⟨rfl, rfl, m, rfl, by simp⟩
    · right; right; right; exact ⟨rfl, rfl, by simp⟩

/-- The cmake stage sequence invokes no compile-and-link driver. -/
theorem dllRequests_llvmStages (args : Args) (w : World) :
    dllRequests (llvmStages args w).1 = [] := by
  rcases llvmStages_cases args w with ⟨m, _, h⟩ | ⟨m, _, _, h⟩ |
    ⟨m, _, _, _, h⟩ | ⟨_, _, _, h⟩ <;> rw [h] <;> rfl

/-- The cmake stage sequence prints nothing. -/
theorem llvmStages_no_prints (args : Args) (w : World) :
    (llvmStages args w).1.filter isPrintMsgB = [] := by
  rcases llvmStages_cases args w with ⟨m, _, h⟩ | ⟨m, _, _, h⟩ |
    ⟨m, _, _, _, h⟩ | ⟨_, _, _, h⟩ <;> rw [h] <;> rfl

/-- The cmake stage sequence performs no checkout. -/
theorem cloneEvents_llvmStages (args : Args) (w : World) :
    cloneEvents (llvmStages args w).1 = [] := by
  rcases llvmStages_cases args w with ⟨m, _, h⟩ | ⟨m, _, _, h⟩ |
    ⟨m, _, _, _, h⟩ | ⟨_, _, _, h⟩ <;> rw [h] <;> rfl

/-- The stages invoked by the cmake sequence form one of the prefixes of
configure, build, install that end at the first failing stage. -/
theorem cmakeStages_llvmStages (args : Args) (w : World) :
    cmakeStages (llvmStages args w).1 = [CmakeStage.configure] ∨
    cmakeStages (llvmStages args w).1 = [CmakeStage.configure, CmakeStage.build] ∨
    cmakeStages (llvmStages args w).1 =
      [CmakeStage.configure, CmakeStage.build, CmakeStage.install] := by
  rcases llvmStages_cases args w with ⟨m, _, h⟩ | ⟨m, _, _, h⟩ |
    ⟨m, _, _, _, h⟩ | ⟨_, _, _, h⟩
  · left; rw [h]; rfl
  · right; left; rw [h]; rfl
  · right; right; rw [h]; rfl
  · right; right; rw [h]; rfl

/-- The install stage runs only after the build stage succeeded. -/
theorem llvmStages_install_needs_build (args : Args) (w : World)
    (h : CmakeStage.install ∈ cmakeStages (llvmStages args w).1) :
    w.cmakeGenErr = none ∧ w.cmakeBuildErr = none := by
  rcases llvmStages_cases args w with ⟨m, hg, hc⟩ | ⟨m, hg, hb, hc⟩ |
    ⟨m, hg, hb, _, hc⟩ | ⟨hg, hb, _, hc⟩
  · rw [hc] at h
    simp [cmakeStages, cmakeConfigureEv] at h
  · rw [hc] at h
    simp [cmakeStages, cmakeConfigureEv, cmakeBuildEv] at h
  · exact ⟨hg, hb⟩
  · exact ⟨hg, hb⟩

/-- The build stage runs only after the configure stage succeeded. -/
theorem llvmStages_build_needs_gen (args : Args) (w : World)
    (h : CmakeStage.build ∈ cmakeStages (llvmStages args w).1) :
    w.cmakeGenErr = none := by
  rcases llvmStages_cases args w with ⟨m, hg, hc⟩ | ⟨m, hg, _, hc⟩ |
    ⟨m, hg, _, _, hc⟩ | ⟨hg, _, _, hc⟩
  · rw [hc] at h
    simp [cmakeStages, cmakeConfigureEv] at h
  · exact hg
  · exact hg
  · exact hg

/-- Prepending a checkout event changes no driver-request trace. -/
theorem dllRequests_cons_clone (l : List Event) :
    dllRequests (cloneEv :: l) = dllRequests l := rfl

/-- Prepending a working-copy open changes no driver-request trace. -/
theorem dllRequests_cons_open (p : String) (l : List Event) :
    dllRequests (Event.gitOpen p :: l) = dllRequests l := rfl

/-- The LLVM bootstrap block invokes no compile-and-link driver. -/
theorem dllRequests_llvmPhase (args : Args) (w : World) :
    dllRequests (llvmPhase args w).1 = [] := by
  rcases llvmPhase_cases args w with ⟨_, h⟩ | ⟨_, _, m, _, h⟩ |
    ⟨_, _, _, h⟩ | ⟨_, _, h⟩ <;> rw [h]
  · rfl
  · rfl
  · rw [show ((cloneEv :: (llvmStages args w).1, (llvmStages args w).2)).1 =
        cloneEv :: (llvmStages args w).1 from rfl,
      dllRequests_cons_clone]
    exact dllRequests_llvmStages args w
  · rw [show ((Event.gitOpen llvm_project_path :: (llvmStages args w).1,
        (llvmStages args w).2)).1 =
        Event.gitOpen llvm_project_path :: (llvmStages args w).1 from rfl,
      dllRequests_cons_open]
    exact dllRequests_llvmStages args w

/-- Prepending a checkout event changes no print trace. -/
theorem filter_prints_cons_clone (l : List Event) :
    (cloneEv :: l).filter isPrintMsgB = l.filter isPrintMsgB := rfl

/-- Prepending a working-copy open changes no print trace. -/
theorem filter_prints_cons_open (p : String) (l : List Event) :
    (Event.gitOpen p :: l).filter isPrintMsgB = l.filter isPrintMsgB := rfl

/-- The LLVM bootstrap block prints nothing. -/
theorem llvmPhase_no_prints (args : Args) (w : World) :
    (llvmPhase args w).1.filter isPrintMsgB = [] := by
  rcases llvmPhase_cases args w with ⟨_, h⟩ | ⟨_, _, m, _, h⟩ |
    ⟨_, _, _, h⟩ | ⟨_, _, h⟩ <;> rw [h]
  · rfl
  · rfl
  · rw [show ((cloneEv :: (llvmStages args w).1, (llvmStages args w).2)).1 =
        cloneEv :: (llvmStages args w).1 from rfl,
      filter_prints_cons_clone]
    exact llvmStages_no_prints args w
  · rw [show ((Event.gitOpen llvm_project_path :: (llvmStages args w).1,
        (llvmStages args w).2)).1 =
        Event.gitOpen llvm_project_path :: (llvmStages args w).1 from rfl,
      filter_prints_cons_open]
    exact llvmStages_no_prints args w

/-- Prepending a checkout event changes no cmake-stage trace. -/
theorem cmakeStages_cons_clone (l : List Event) :
    cmakeStages (cloneEv :: l) = cmakeStages l := rfl

/-- Prepending a working-copy open changes no cmake-stage trace. -/
theorem cmakeStages_cons_open (p : String) (l : List Event) :
    cmakeStages (Event.gitOpen p :: l) = cmakeStages l := rfl

/-- The stages invoked by the LLVM bootstrap block, when it runs at all,
are those of the cmake sequence. -/
theorem cmakeStages_llvmPhase (args : Args) (w : World) :
    cmakeStages (llvmPhase args w).1 = [] ∨
    cmakeStages (llvmPhase args w).1 = cmakeStages (llvmStages args w).1 := by
  rcases llvmPhase_cases args w with ⟨_, h⟩ | ⟨_, _, m, _, h⟩ |
    ⟨_, _, _, h⟩ | ⟨_, _, h⟩ <;> rw [h]
  · left; rfl
  · left; rfl
  · right
    exact cmakeStages_cons_clone (llvmStages args w).1
  · right
    exact cmakeStages_cons_open llvm_project_path (llvmStages args w).1

/-- Exhaustive characterization of the primary-target step. -/
theorem warpStep_cases (args : Args) (w : World) :
    (∃ m, configCudaPath args w = none ∧ w.warpBuildErr = some m ∧
      warpStep args w =
        ([Event.printMsg cudaWarningMsg, Event.buildDll (warpReq args w),
          Event.printMsg (boundaryMsg m)], Outcome.exit 1)) ∨
    (configCudaPath args w = none ∧ w.warpBuildErr = none ∧
      warpStep args w =
        ([Event.printMsg cudaWarningMsg, Event.buildDll (warpReq args w)],
         Outcome.exit 0)) ∨
    (∃ p m, configCudaPath args w = some p ∧ w.warpBuildErr = some m ∧
      warpStep args w =
        ([Event.buildDll (warpReq args w), Event.printMsg (boundaryMsg m)],
         Outcome.exit 1)) ∨
    (∃ p, configCudaPath args w = some p ∧ w.warpBuildErr = none ∧
      warpStep args w = ([Event.buildDll (warpReq args w)], Outcome.exit 0)) := by
  unfold warpStep
  rcases h1 : configCudaPath args w with _ | p <;>
    rcases h2 : w.warpBuildErr with _ | m
  · right; left; exact ⟨rfl, rfl, rfl⟩
  · left; exact ⟨m, rfl, rfl, rfl⟩
  · right; right; right; exact ⟨p, rfl, rfl, rfl⟩
  · right; right; left; exact ⟨p, m, rfl, rfl, rfl⟩

/-- Exhaustive characterization of the try block. -/
theorem tryPhase_cases (args : Args) (w : World) :
    (args.buildLlvm = false ∧ tryPhase args w = warpStep args w) ∨
    (args.buildLlvm = true ∧ (∃ m, w.clangBuildErr = some m ∧
      tryPhase args w =
        ([Event.buildDll (clangReq args w), Event.printMsg (boundaryMsg m)],
         Outcome.exit 1))) ∨
    (args.buildLlvm = true ∧ w.clangBuildErr = none ∧
      tryPhase args w =
        (Event.buildDll (clangReq args w) :: (warpStep args w).1,
         (warpStep args w).2)) := by
  unfold tryPhase
  rcases hb : args.buildLlvm
  · left; exact ⟨rfl, by simp⟩
  · rcases hc : w.clangBuildErr with _ | m
    · right; right; exact ⟨rfl, rfl, by simp⟩
    · right; left; exact ⟨rfl, m, rfl, by simp⟩

/-- The try block invokes no cmake stage: primary-target step part. -/
theorem cmakeStages_warpStep (args : Args) (w : World) :
    cmakeStages (warpStep args w).1 = [] := by
  rcases warpStep_cases args w with ⟨m, _, _, h⟩ | ⟨_, _, h⟩ |
    ⟨p, m, _, _, h⟩ | ⟨p, _, _, h⟩ <;> rw [h] <;> rfl

/-- The try block invokes no cmake stage. -/
theorem cmakeStages_tryPhase (args : Args) (w : World) :
    cmakeStages (tryPhase args w).1 = [] := by
  rcases tryPhase_cases args w with ⟨_, h⟩ | ⟨_, m, _, h⟩ | ⟨_, _, h⟩ <;> rw [h]
  · exact cmakeStages_warpStep args w
  · rfl
  · exact cmakeStages_warpStep args w

/-- The try block performs no checkout: primary-target step part. -/
theorem cloneEvents_warpStep (args : Args) (w : World) :
    cloneEvents (warpStep args w).1 = [] := by
  rcases warpStep_cases args w with ⟨m, _, _, h⟩ | ⟨_, _, h⟩ |
    ⟨p, m, _, _, h⟩ | ⟨p, _, _, h⟩ <;> rw [h] <;> rfl

/-- The try block performs no checkout. -/
theorem cloneEvents_tryPhase (args : Args) (w : World) :
    cloneEvents (tryPhase args w).1 = [] := by
  rcases tryPhase_cases args w with ⟨_, h⟩ | ⟨_, m, _, h⟩ | ⟨_, _, h⟩ <;> rw [h]
  · exact cloneEvents_warpStep args w
  · rfl
  · exact cloneEvents_warpStep args w

/-- The primary-target step submits exactly the primary request. -/
theorem dllRequests_warpStep (args : Args) (w : World) :
    dllRequests (warpStep args w).1 = [warpReq args w] := by
  rcases warpStep_cases args w with ⟨m, _, _, h⟩ | ⟨_, _, h⟩ |
    ⟨p, m, _, _, h⟩ | ⟨p, _, _, h⟩ <;> rw [h] <;> rfl

/-- The requests the try block submits to the driver, in order. -/
theorem dllRequests_tryPhase (args : Args) (w : World) :
    dllRequests (tryPhase args w).1 = [warpReq args w] ∨
    dllRequests (tryPhase args w).1 = [clangReq args w] ∨
    dllRequests (tryPhase args w).1 = [clangReq args w, warpReq args w] := by
  rcases tryPhase_cases args w with ⟨_, h⟩ | ⟨_, m, _, h⟩ | ⟨_, _, h⟩ <;> rw [h]
  · left; exact dllRequests_warpStep args w
  · right; left; rfl
  · right; right
    rw [show ((Event.buildDll (clangReq args w) :: (warpStep args w).1,
        (warpStep args w).2)).1 =
        Event.buildDll (clangReq args w) :: (warpStep args w).1 from rfl]
    rw [show dllRequests (Event.buildDll (clangReq args w) :: (warpStep args w).1) =
        clangReq args w :: dllRequests (warpStep args w).1 from rfl]
    rw [dllRequests_warpStep args w]

/-- The try block always ends in an explicit exit, never an uncaught
exception. -/
theorem tryPhase_exits (args : Args) (w : World) :
    (tryPhase args w).2 = Outcome.exit 0 ∨ (tryPhase args w).2 = Outcome.exit 1 := by
  have hw : (warpStep args w).2 = Outcome.exit 0 ∨
      (warpStep args w).2 = Outcome.exit 1 := by
    rcases warpStep_cases args w with ⟨m, _, _, h⟩ | ⟨_, _, h⟩ |
      ⟨p, m, _, _, h⟩ | ⟨p, _, _, h⟩ <;> rw [h]
    · right; rfl
    · left; rfl
    · right; rfl
    · left; rfl
  rcases tryPhase_cases args w with ⟨_, h⟩ | ⟨_, m, _, h⟩ | ⟨_, _, h⟩ <;> rw [h]
  · exact hw
  · right; rfl
  · exact hw

/-- The MSVC block terminates the script only with exit status 1. -/
theorem msvcPhase_stop_exit (args : Args) (w : World) (out : Outcome)
    (h : (msvcPhase args w).2 = some out) : out = Outcome.exit 1 := by
  rcases msvcPhase_cases args w with hc | hc | hc | hc <;> rw [hc] at h <;>
    simp at h
  exact h.symm

/-- Trace of a run stopped inside the MSVC block. -/
theorem run_msvc_stop_events (args : Args) (w : World) (out : Outcome)
    (h : (msvcPhase args w).2 = some out) :
    (run args w).events = Event.printArgs args :: (msvcPhase args w).1 := by
  unfold run
  rw [h]

/-- Outcome of a run stopped inside the MSVC block. -/
theorem run_msvc_stop_outcome (args : Args) (w : World) (out : Outcome)
    (h : (msvcPhase args w).2 = some out) :
    (run args w).outcome = out := by
  unfold run
  rw [h]

/-- Trace of a run stopped inside the LLVM bootstrap block. -/
theorem run_llvm_stop_events (args : Args) (w : World) (out : Outcome)
    (h1 : (msvcPhase args w).2 = none) (h2 : (llvmPhase args w).2 = some out) :
    (run args w).events =
      Event.printArgs args :: ((msvcPhase args w).1 ++ (llvmPhase args w).1) := by
  unfold run
  rw [h1, h2]

/-- Outcome of a run stopped inside the LLVM bootstrap block. -/
theorem run_llvm_stop_outcome (args : Args) (w : World) (out : Outcome)
    (h1 : (msvcPhase args w).2 = none) (h2 : (llvmPhase args w).2 = some out) :
    (run args w).outcome = out := by
  unfold run
  rw [h1, h2]

/-- Trace of a run that reaches the try block. -/
theorem run_full_events (args : Args) (w : World)
    (h1 : (msvcPhase args w).2 = none) (h2 : (llvmPhase args w).2 = none) :
    (run args w).events =
      Event.printArgs args ::
        ((msvcPhase args w).1 ++ (llvmPhase args w).1 ++ (tryPhase args w).1) := by
  unfold run
  rw [h1, h2]

/-- Outcome of a run that reaches the try block. -/
theorem run_full_outcome (args : Args) (w : World)
    (h1 : (msvcPhase args w).2 = none) (h2 : (llvmPhase args w).2 = none) :
    (run args w).outcome = (tryPhase args w).2 := by
  unfold run
  rw [h1, h2]

/-- The initial argument print carries no cmake stage. -/
theorem cmakeStages_cons_printArgs (a : Args) (l : List Event) :
    cmakeStages (Event.printArgs a :: l) = cmakeStages l := rfl

/-- The initial argument print carries no driver request. -/
theorem dllRequests_cons_printArgs (a : Args) (l : List Event) :
    dllRequests (Event.printArgs a :: l) = dllRequests l := rfl

/-- The initial argument print is not a plain message print. -/
theorem filter_prints_cons_printArgs (a : Args) (l : List Event) :
    (Event.printArgs a :: l).filter isPrintMsgB = l.filter isPrintMsgB := rfl

/-- The initial argument print is not a checkout. -/
theorem cloneEvents_cons_printArgs (a : Args) (l : List Event) :
    cloneEvents (Event.printArgs a :: l) = cloneEvents l := rfl

/-- The cmake-stage trace distributes over concatenation. -/
theorem cmakeStages_append (l₁ l₂ : List Event) :
    cmakeStages (l₁ ++ l₂) = cmakeStages l₁ ++ cmakeStages l₂ := by
  simp [cmakeStages, List.filterMap_append]

/-- The driver-request trace distributes over concatenation. -/
theorem dllRequests_append (l₁ l₂ : List Event) :
    dllRequests (l₁ ++ l₂) = dllRequests l₁ ++ dllRequests l₂ := by
  simp [dllRequests, List.filterMap_append]

/-- The checkout trace distributes over concatenation. -/
theorem cloneEvents_append (l₁ l₂ : List Event) :
    cloneEvents (l₁ ++ l₂) = cloneEvents l₁ ++ cloneEvents l₂ := by
  simp [cloneEvents, List.filter_append]

/-- The cmake stages of a whole run are exactly those of the cmake
sequence, or none when the script stops before it or skips it. -/
theorem cmakeStages_run (args : Args) (w : World) :
    cmakeStages (run args w).events = [] ∨
    cmakeStages (run args w).events = cmakeStages (llvmStages args w).1 := by
  rcases hm : (msvcPhase args w).2 with _ | out
  · rcases hl : (llvmPhase args w).2 with _ | out
    · rw [run_full_events args w hm hl, cmakeStages_cons_printArgs,
        cmakeStages_append, cmakeStages_append, cmakeStages_msvcPhase,
        cmakeStages_tryPhase]
      simp only [List.nil_append, List.append_nil]
      exact cmakeStages_llvmPhase args w
    · rw [run_llvm_stop_events args w out hm hl, cmakeStages_cons_printArgs,
        cmakeStages_append, cmakeStages_msvcPhase]
      simp only [List.nil_append]
      exact cmakeStages_llvmPhase args w
  · rw [run_msvc_stop_events args w out hm, cmakeStages_cons_printArgs,
      cmakeStages_msvcPhase]
    left; rfl

/-- The driver requests of a whole run are exactly those of the try
block, or none when the script stops before it. -/
theorem dllRequests_run (args : Args) (w : World) :
    dllRequests (run args w).events = [] ∨
    dllRequests (run args w).events = dllRequests (tryPhase args w).1 := by
  rcases hm : (msvcPhase args w).2 with _ | out
  · rcases hl : (llvmPhase args w).2 with _ | out
    · rw [run_full_events args w hm hl, dllRequests_cons_printArgs,
        dllRequests_append, dllRequests_append, dllRequests_msvcPhase,
        dllRequests_llvmPhase]
      simp only [List.nil_append]
      right
      trivial
    · rw [run_llvm_stop_events args w out hm hl, dllRequests_cons_printArgs,
        dllRequests_append, dllRequests_msvcPhase, dllRequests_llvmPhase]
      left; rfl
  · rw [run_msvc_stop_events args w out hm, dllRequests_cons_printArgs,
      dllRequests_msvcPhase]
    left; rfl

/-- When the working copy already exists, the LLVM bootstrap block
performs no checkout. -/
theorem cloneEvents_llvmPhase_exists (args : Args) (w : World)
    (he : w.llvmProjectExists = true) :
    cloneEvents (llvmPhase args w).1 = [] := by
  rcases llvmPhase_cases args w with ⟨_, h⟩ | ⟨_, hne, m, _, h⟩ |
    ⟨_, hne, _, h⟩ | ⟨_, _, h⟩
  · rw [h]; rfl
  · rw [he] at hne; exact absurd hne (by simp)
  · rw [he] at hne; exact absurd hne (by simp)
  · rw [h]
    rw [show ((Event.gitOpen llvm_project_path :: (llvmStages args w).1,
        (llvmStages args w).2)).1 =
        Event.gitOpen llvm_project_path :: (llvmStages args w).1 from rfl]
    rw [show cloneEvents (Event.gitOpen llvm_project_path :: (llvmStages args w).1) =
        cloneEvents (llvmStages args w).1 from rfl]
    exact cloneEvents_llvmStages args w

/-- When the working copy already exists, a whole run performs no
checkout. -/
theorem cloneEvents_run_exists (args : Args) (w : World)
    (he : w.llvmProjectExists = true) :
    cloneEvents (run args w).events = [] := by
  rcases hm : (msvcPhase args w).2 with _ | out
  · rcases hl : (llvmPhase args w).2 with _ | out
    · rw [run_full_events args w hm hl, cloneEvents_cons_printArgs,
        cloneEvents_append, cloneEvents_append, cloneEvents_msvcPhase,
        cloneEvents_llvmPhase_exists args w he, cloneEvents_tryPhase]
      rfl
    · rw [run_llvm_stop_events args w out hm hl, cloneEvents_cons_printArgs,
        cloneEvents_append, cloneEvents_msvcPhase,
        cloneEvents_llvmPhase_exists args w he]
      rfl
  · rw [run_msvc_stop_events args w out hm, cloneEvents_cons_printArgs,
      cloneEvents_msvcPhase]

/-- A run that dies of an uncaught exception prints no message at all:
in particular the failure never reaches the try/except boundary and its
Warp build error report. -/
theorem run_uncaught_no_prints (args : Args) (w : World) (msg : String)
    (h : (run args w).outcome = Outcome.uncaught msg) :
    (run args w).events.filter isPrintMsgB = [] := by
  rcases hm : (msvcPhase args w).2 with _ | out
  · rcases hl : (llvmPhase args w).2 with _ | out
    · rw [run_full_outcome args w hm hl] at h
      rcases tryPhase_exits args w with he | he <;> rw [he] at h <;>
        exact absurd h (by simp)
    · rw [run_llvm_stop_events args w out hm hl, filter_prints_cons_printArgs,
        List.filter_append, msvcPhase_no_prints args w hm,
        llvmPhase_no_prints args w]
      rfl
  · have hx := msvcPhase_stop_exit args w out hm
    rw [run_msvc_stop_outcome args w out hm, hx] at h
    exact absurd h (by simp)

/-- Every driver request of a run is the clang request or the warp
request. -/
theorem mem_dll_run (args : Args) (w : World) (r : DllRequest)
    (h : Event.buildDll r ∈ (run args w).events) :
    r = clangReq args w ∨ r = warpReq args w := by
  have hr : r ∈ dllRequests (run args w).events := by
    unfold dllRequests
    exact List.mem_filterMap.2 ⟨Event.buildDll r, h, rfl⟩
  rcases dllRequests_run args w with hd | hd <;> rw [hd] at hr
  · exact absurd hr (by simp)
  · rcases dllRequests_tryPhase args w with ht | ht | ht <;> rw [ht] at hr
    · right; exact List.mem_singleton.1 hr
    · left; exact List.mem_singleton.1 hr
    · rcases List.mem_cons.1 hr with h1 | h1
      · left; exact h1
      · right; exact List.mem_singleton.1 h1

/-- Default parsed arguments: every optional path absent and every flag at
its argparse default. -/
def argsDefault : Args :=
  { msvcPath := none, sdkPath := none, cudaPath := none, mode := "release",
    verbose := true, verifyFp := false, fastMath := false, quick := false,
    buildLlvm := false }

/-- Arguments with the quick flag set. -/
def argsQuick : Args := { argsDefault with quick := true }

/-- Arguments with the build_llvm flag set. -/
def argsLlvm : Args := { argsDefault with buildLlvm := true }

/-- Arguments with an unrecognized mode and the build_llvm flag set. -/
def argsBogus : Args := { argsDefault with mode := "bogus", buildLlvm := true }

/-- A linux world where every external step succeeds, no CUDA toolkit is
present, and the LLVM working copy already exists. -/
def worldLinuxOk : World :=
  { platform := OsFamily.linux, envCudaHome := none, envCudaPath := none,
    hostCompilerFound := none, llvmProjectExists := true, cloneErr := none,
    cmakeGenErr := none, cmakeBuildErr := none, cmakeInstallErr := none,
    installLibs := [], clangBuildErr := none, warpBuildErr := none }

/-- A win32 world where the MSVC environment probe finds nothing. -/
def worldWin32NoMsvc : World := { worldLinuxOk with platform := OsFamily.win32 }

/-- A darwin world. -/
def worldDarwin : World := { worldLinuxOk with platform := OsFamily.darwin }

/-- A darwin world whose environment does advertise a CUDA toolkit. -/
def worldDarwinEnv : World :=
  { worldLinuxOk with
    platform := OsFamily.darwin
    envCudaHome := some "/opt/cuda" }

/-- A world where the primary-target compile fails. -/
def worldWarpFails : World := { worldLinuxOk with warpBuildErr := some "link error" }

/-- A world where the cmake build stage fails. -/
def worldCmakeBuildFails : World :=
  { worldLinuxOk with cmakeBuildErr := some "build error" }

/-- A world whose LLVM install lib directory holds two library files. -/
def worldTwoLibs : World :=
  { worldLinuxOk with installLibs := ["LLVMCore.lib", "clangAST.lib"] }

/-- C9: on the non-GPU-capable platform family (darwin), CUDA discovery
yields absent for every explicit-path input and every environment, and
the result never depends on the explicit path or the environment probes. -/
theorem C9_darwin_no_cuda (args args2 : Args) (w w2 : World)
    (h : w.platform = OsFamily.darwin) (h2 : w2.platform = OsFamily.darwin) :
    configCudaPath args w = none ∧
    configCudaPath args w = configCudaPath args2 w2 := by
  constructor <;> simp [configCudaPath, h, h2]

/-- C9 witness: an explicit CUDA path and a CUDA-advertising environment
are both ignored on darwin. -/
theorem C9_darwin_no_cuda_witness :
    configCudaPath { argsDefault with cudaPath := some "/usr/local/cuda" }
      worldDarwin = none ∧
    configCudaPath { argsDefault with cudaPath := some "/usr/local/cuda" }
      worldDarwin = configCudaPath argsDefault worldDarwinEnv :=
  C9_darwin_no_cuda { argsDefault with cudaPath := some "/usr/local/cuda" }
    argsDefault worldDarwin worldDarwinEnv (by decide) (by decide)

/-- C4: on the platform family that requires an explicit host compiler,
when the two explicit paths are not both given and the environment probe
finds no compiler, the run prints the distinct MSVC error, exits with
status 1, and never invokes the compile-and-link driver. -/
theorem C4_msvc_missing_fatal (args : Args) (w : World)
    (hplat : w.platform = OsFamily.win32)
    (hexp : (truthy args.sdkPath && truthy args.msvcPath) = false)
    (henv : truthy w.hostCompilerFound = false) :
    (run args w).events =
      [Event.printArgs args, Event.findHostCompilerProbe,
       Event.printMsg msvcErrorMsg] ∧
    (run args w).outcome = Outcome.exit 1 ∧
    dllRequests (run args w).events = [] := by
  have hm : msvcPhase args w =
      ([Event.findHostCompilerProbe, Event.printMsg msvcErrorMsg],
       some (Outcome.exit 1)) := by
    unfold msvcPhase
    rw [hplat]
    simp [hexp, henv]
  have h2 : (msvcPhase args w).2 = some (Outcome.exit 1) := by rw [hm]
  refine ⟨?_, ?_, ?_⟩
  · rw [run_msvc_stop_events args w _ h2, hm]
  · exact run_msvc_stop_outcome args w _ h2
  · rw [run_msvc_stop_events args w _ h2, dllRequests_cons_printArgs,
      dllRequests_msvcPhase]

/-- C4 witness: a win32 run with no explicit compiler paths and an empty
environment stops with the MSVC error before any compilation. -/
theorem C4_msvc_missing_fatal_witness :
    (run argsDefault worldWin32NoMsvc).events =
      [Event.printArgs argsDefault, Event.findHostCompilerProbe,
       Event.printMsg msvcErrorMsg] ∧
    (run argsDefault worldWin32NoMsvc).outcome = Outcome.exit 1 ∧
    dllRequests (run argsDefault worldWin32NoMsvc).events = [] :=
  C4_msvc_missing_fatal argsDefault worldWin32NoMsvc (by decide) (by decide)
    (by decide)

/-- C10: every request either target submits to the compile-and-link
driver, in every run and configuration, has caching disabled. -/
theorem C10_no_cache (args : Args) (w : World) (r : DllRequest)
    (h : Event.buildDll r ∈ (run args w).events) : r.useCache = false := by
  rcases mem_dll_run args w r h with h1 | h1 <;> rw [h1] <;> rfl

/-- C10 witness: the primary request of a default run has caching
disabled. -/
theorem C10_no_cache_witness :
    (warpReq argsDefault worldLinuxOk).useCache = false :=
  C10_no_cache argsDefault worldLinuxOk (warpReq argsDefault worldLinuxOk)
    (by decide)

/-- C1 counterexample: with the quick flag set, the single request the
primary target submits to the compile-and-link driver still lists the
CUTLASS source module, refuting the claim that it is absent from that
list when quickMode is true. -/
theorem C1_counterexample :
    argsQuick.quick = true ∧
    dllRequests (run argsQuick worldLinuxOk).events =
      [warpReq argsQuick worldLinuxOk] ∧
    cutlass_path ∈ (warpReq argsQuick worldLinuxOk).cppPaths := by
  refine ⟨rfl, by decide, by decide⟩

/-- C1 amended: for every configuration, the primary request submitted to
the driver (the one carrying a quick argument) has the fixed source list
warp_cpp_paths, which always contains the CUTLASS module; the quick flag
is forwarded to the driver unchanged instead of filtering the list. -/
theorem C1_cutlass_always_listed (args : Args) (w : World) (r : DllRequest)
    (hmem : Event.buildDll r ∈ (run args w).events)
    (hq : r.quick.isSome = true) :
    r.cppPaths = warp_cpp_paths ∧ cutlass_path ∈ r.cppPaths ∧
    r.quick = some args.quick := by
  rcases mem_dll_run args w r hmem with h1 | h1
  · rw [h1] at hq
    exact absurd hq (by simp [clangReq])
  · rw [h1]
    refine ⟨rfl, ?_, rfl⟩
    show cutlass_path ∈ warp_cpp_paths
    decide

/-- C1 witness: a quick run on linux submits the primary request with the
CUTLASS module in its source list and the quick flag forwarded. -/
theorem C1_cutlass_always_listed_witness :
    (warpReq argsQuick worldLinuxOk).cppPaths = warp_cpp_paths ∧
    cutlass_path ∈ (warpReq argsQuick worldLinuxOk).cppPaths ∧
    (warpReq argsQuick worldLinuxOk).quick = some argsQuick.quick :=
  C1_cutlass_always_listed argsQuick worldLinuxOk
    (warpReq argsQuick worldLinuxOk) (by decide) (by decide)

/-- C5: the cmake stages invoked by any run form a prefix of configure,
build, install in that order; the build stage requires the configure
stage to have succeeded, and the install stage requires both earlier
stages to have succeeded, so no later stage ever runs after an earlier
failure, and in particular install is never invoked when build fails. -/
theorem C5_stage_order (args : Args) (w : World) :
    (cmakeStages (run args w).events = [] ∨
     cmakeStages (run args w).events = [CmakeStage.configure] ∨
     cmakeStages (run args w).events = [CmakeStage.configure, CmakeStage.build] ∨
     cmakeStages (run args w).events =
       [CmakeStage.configure, CmakeStage.build, CmakeStage.install]) ∧
    (CmakeStage.build ∈ cmakeStages (run args w).events →
      w.cmakeGenErr = none) ∧
    (CmakeStage.install ∈ cmakeStages (run args w).events →
      w.cmakeGenErr = none ∧ w.cmakeBuildErr = none) := by
  rcases cmakeStages_run args w with h | h <;> rw [h]
  · refine ⟨Or.inl rfl, ?_, ?_⟩ <;> intro hx <;> exact absurd hx (by simp)
  · refine ⟨?_, llvmStages_build_needs_gen args w,
      llvmStages_install_needs_build args w⟩
    rcases cmakeStages_llvmStages args w with h1 | h1 | h1
    · exact Or.inr (Or.inl h1)
    · exact Or.inr (Or.inr (Or.inl h1))
    · exact Or.inr (Or.inr (Or.inr h1))

/-- C5 witness: in a bootstrap run whose cmake build stage fails, the
invoked stages are exactly configure then build, and install is absent. -/
theorem C5_stage_order_witness :
    (cmakeStages (run argsLlvm worldCmakeBuildFails).events = [] ∨
     cmakeStages (run argsLlvm worldCmakeBuildFails).events =
       [CmakeStage.configure] ∨
     cmakeStages (run argsLlvm worldCmakeBuildFails).events =
       [CmakeStage.configure, CmakeStage.build] ∨
     cmakeStages (run argsLlvm worldCmakeBuildFails).events =
       [CmakeStage.configure, CmakeStage.build, CmakeStage.install]) ∧
    (CmakeStage.build ∈ cmakeStages (run argsLlvm worldCmakeBuildFails).events →
      worldCmakeBuildFails.cmakeGenErr = none) ∧
    (CmakeStage.install ∈ cmakeStages (run argsLlvm worldCmakeBuildFails).events →
      worldCmakeBuildFails.cmakeGenErr = none ∧
      worldCmakeBuildFails.cmakeBuildErr = none) :=
  C5_stage_order argsLlvm worldCmakeBuildFails

/-- The cmake sequence when every stage succeeds. -/
theorem llvmStages_all_ok (args : Args) (w : World) (h1 : w.cmakeGenErr = none)
    (h2 : w.cmakeBuildErr = none) (h3 : w.cmakeInstallErr = none) :
    llvmStages args w =
      ([cmakeConfigureEv args, cmakeBuildEv args, cmakeInstallEv args], none) := by
  unfold llvmStages
  rw [h1, h2, h3]

/-- The LLVM bootstrap block over an existing working copy with all cmake
stages succeeding: the working copy is opened and all three stages run. -/
theorem llvmPhase_exists_ok (args : Args) (w : World)
    (hb : args.buildLlvm = true) (he : w.llvmProjectExists = true)
    (h1 : w.cmakeGenErr = none) (h2 : w.cmakeBuildErr = none)
    (h3 : w.cmakeInstallErr = none) :
    llvmPhase args w =
      (Event.gitOpen llvm_project_path ::
        [cmakeConfigureEv args, cmakeBuildEv args, cmakeInstallEv args],
       none) := by
  simp [llvmPhase, hb, he, llvmStages_all_ok args w h1 h2 h3]

/-- C6: re-running the bootstrap over an existing working copy performs
no checkout, opens the working copy as-is, and still invokes all three
cmake stages in order. -/
theorem C6_idempotent_checkout (args : Args) (w : World)
    (hb : args.buildLlvm = true) (he : w.llvmProjectExists = true)
    (hm : (msvcPhase args w).2 = none)
    (h1 : w.cmakeGenErr = none) (h2 : w.cmakeBuildErr = none)
    (h3 : w.cmakeInstallErr = none) :
    cloneEvents (run args w).events = [] ∧
    Event.gitOpen llvm_project_path ∈ (run args w).events ∧
    cmakeStages (run args w).events =
      [CmakeStage.configure, CmakeStage.build, CmakeStage.install] := by
  have hphase := llvmPhase_exists_ok args w hb he h1 h2 h3
  have hl : (llvmPhase args w).2 = none := by rw [hphase]
  refine ⟨cloneEvents_run_exists args w he, ?_, ?_⟩
  · rw [run_full_events args w hm hl]
    have hmem : Event.gitOpen llvm_project_path ∈ (llvmPhase args w).1 := by
      rw [hphase]
      exact List.mem_cons_self _ _
    exact List.mem_cons_of_mem _
      (List.mem_append_left _ (List.mem_append_right _ hmem))
  · rw [run_full_events args w hm hl, cmakeStages_cons_printArgs,
      cmakeStages_append, cmakeStages_append, cmakeStages_msvcPhase,
      cmakeStages_tryPhase, hphase]
    rfl

/-- C6 witness: a linux bootstrap rerun over an existing checkout. -/
theorem C6_idempotent_checkout_witness :
    cloneEvents (run argsLlvm worldLinuxOk).events = [] ∧
    Event.gitOpen llvm_project_path ∈ (run argsLlvm worldLinuxOk).events ∧
    cmakeStages (run argsLlvm worldLinuxOk).events =
      [CmakeStage.configure, CmakeStage.build, CmakeStage.install] :=
  C6_idempotent_checkout argsLlvm worldLinuxOk (by decide) (by decide)
    (by decide) (by decide) (by decide) (by decide)

/-- C7: with the bundled toolchain enabled and the bootstrap reached, the
auxiliary target request lists exactly the install-directory library
files first, then the fixed system library Version.lib, then one LIBPATH
search-path directive, giving n + 2 entries, and that request is
submitted to the driver. -/
theorem C7_clang_libs (args : Args) (w : World) (n : Nat)
    (hb : args.buildLlvm = true)
    (hm : (msvcPhase args w).2 = none)
    (hl : (llvmPhase args w).2 = none)
    (hn : w.installLibs.length = n) :
    (clangReq args w).libs =
      some (w.installLibs ++ ["Version.lib", libpathDirective args]) ∧
    (w.installLibs ++ ["Version.lib", libpathDirective args]).length = n + 2 ∧
    Event.buildDll (clangReq args w) ∈ (run args w).events := by
  refine ⟨rfl, ?_, ?_⟩
  · rw [List.length_append, hn]
    rfl
  · rw [run_full_events args w hm hl]
    have hmem : Event.buildDll (clangReq args w) ∈ (tryPhase args w).1 := by
      rcases tryPhase_cases args w with ⟨hb2, _⟩ | ⟨_, m, _, h⟩ | ⟨_, _, h⟩
      · rw [hb2] at hb
        exact absurd hb (by simp)
      · rw [h]
        exact List.mem_cons_self _ _
      · rw [h]
        exact List.mem_cons_self _ _
    exact List.mem_cons_of_mem _ (List.mem_append_right _ hmem)

/-- C7 witness: with two library files installed, the auxiliary target
request carries those two, Version.lib, and the LIBPATH directive, four
entries in that order. -/
theorem C7_clang_libs_witness :
    (clangReq argsLlvm worldTwoLibs).libs =
      some (worldTwoLibs.installLibs ++
        ["Version.lib", libpathDirective argsLlvm]) ∧
    (worldTwoLibs.installLibs ++
      ["Version.lib", libpathDirective argsLlvm]).length = 2 + 2 ∧
    Event.buildDll (clangReq argsLlvm worldTwoLibs) ∈
      (run argsLlvm worldTwoLibs).events :=
  C7_clang_libs argsLlvm worldTwoLibs 2 (by decide) (by decide) (by decide)
    (by decide)

/-- The primary-target step when the driver succeeds there. -/
theorem warpStep_ok_mem (args : Args) (w : World)
    (hw : w.warpBuildErr = none) :
    (warpStep args w).2 = Outcome.exit 0 ∧
    Event.buildDll (warpReq args w) ∈ (warpStep args w).1 := by
  rcases warpStep_cases args w with ⟨m, _, h2, h⟩ | ⟨_, _, h⟩ |
    ⟨p, m, _, h2, h⟩ | ⟨p, _, _, h⟩
  · rw [hw] at h2
    exact absurd h2 (by simp)
  · rw [h]
    exact ⟨rfl, by simp⟩
  · rw [hw] at h2
    exact absurd h2 (by simp)
  · rw [h]
    exact ⟨rfl, by simp⟩

/-- The primary-target step prints the CUDA warning when no CUDA
toolchain was discovered. -/
theorem warpStep_warns (args : Args) (w : World)
    (hc : configCudaPath args w = none) :
    Event.printMsg cudaWarningMsg ∈ (warpStep args w).1 := by
  rcases warpStep_cases args w with ⟨m, _, _, h⟩ | ⟨_, _, h⟩ |
    ⟨p, m, hp, _, _⟩ | ⟨p, hp, _, _⟩
  · rw [h]; simp
  · rw [h]; simp
  · rw [hc] at hp
    exact absurd hp (by simp)
  · rw [hc] at hp
    exact absurd hp (by simp)

/-- The try block when the primary compile succeeds and, when attempted,
the auxiliary compile succeeds too. -/
theorem tryPhase_all_ok (args : Args) (w : World)
    (hcl : args.buildLlvm = true → w.clangBuildErr = none)
    (hw : w.warpBuildErr = none) :
    (tryPhase args w).2 = Outcome.exit 0 ∧
    Event.buildDll (warpReq args w) ∈ (tryPhase args w).1 ∧
    ((warpStep args w).1.Sublist (tryPhase args w).1 ∨
      (tryPhase args w).1 = (warpStep args w).1) := by
  rcases tryPhase_cases args w with ⟨_, h⟩ | ⟨hb, m, hc, h⟩ | ⟨_, _, h⟩
  · rw [h]
    exact ⟨(warpStep_ok_mem args w hw).1, (warpStep_ok_mem args w hw).2,
      Or.inr rfl⟩
  · rw [hcl hb] at hc
    exact absurd hc (by simp)
  · rw [h]
    exact ⟨(warpStep_ok_mem args w hw).1,
      List.mem_cons_of_mem _ (warpStep_ok_mem args w hw).2,
      Or.inl (List.sublist_cons_self _ _)⟩

/-- C8: when no CUDA toolkit is discovered, the run still reaches the
driver with the primary target, whose GPU-kernel source is absent, a
warning is printed, and the run exits 0 when compilation succeeds. -/
theorem C8_no_cuda_still_builds (args : Args) (w : World)
    (hm : (msvcPhase args w).2 = none)
    (hl : (llvmPhase args w).2 = none)
    (hc : configCudaPath args w = none)
    (hcl : args.buildLlvm = true → w.clangBuildErr = none)
    (hw : w.warpBuildErr = none) :
    (run args w).outcome = Outcome.exit 0 ∧
    Event.printMsg cudaWarningMsg ∈ (run args w).events ∧
    Event.buildDll (warpReq args w) ∈ (run args w).events ∧
    (warpReq args w).cuPath = none := by
  have htry := tryPhase_all_ok args w hcl hw
  refine ⟨?_, ?_, ?_, ?_⟩
  · rw [run_full_outcome args w hm hl]
    exact htry.1
  · rw [run_full_events args w hm hl]
    have hwarn : Event.printMsg cudaWarningMsg ∈ (tryPhase args w).1 := by
      rcases htry.2.2 with hs | hs
      · exact hs.mem (warpStep_warns args w hc)
      · rw [hs]
        exact warpStep_warns args w hc
    exact List.mem_cons_of_mem _ (List.mem_append_right _ hwarn)
  · rw [run_full_events args w hm hl]
    exact List.mem_cons_of_mem _ (List.mem_append_right _ htry.2.1)
  · show warp_cu_path args w = none
    unfold warp_cu_path
    rw [hc]

/-- C8 witness: a default linux run with no CUDA anywhere warns, builds
the CPU-only primary target, and exits 0. -/
theorem C8_no_cuda_still_builds_witness :
    (run argsDefault worldLinuxOk).outcome = Outcome.exit 0 ∧
    Event.printMsg cudaWarningMsg ∈ (run argsDefault worldLinuxOk).events ∧
    Event.buildDll (warpReq argsDefault worldLinuxOk) ∈
      (run argsDefault worldLinuxOk).events ∧
    (warpReq argsDefault worldLinuxOk).cuPath = none :=
  C8_no_cuda_still_builds argsDefault worldLinuxOk (by decide) (by decide)
    (by decide) (by decide) (by decide)

/-- A failing primary compile is caught: the step exits 1 and prints the
boundary message carrying the tool message. -/
theorem warpStep_fail (args : Args) (w : World) (msg : String)
    (hw : w.warpBuildErr = some msg) :
    (warpStep args w).2 = Outcome.exit 1 ∧
    Event.printMsg (boundaryMsg msg) ∈ (warpStep args w).1 := by
  rcases warpStep_cases args w with ⟨m, _, h2, h⟩ | ⟨_, h2, _⟩ |
    ⟨p, m, _, h2, h⟩ | ⟨p, _, h2, _⟩
  · rw [hw] at h2
    injection h2 with hm2
    rw [h, hm2]
    exact ⟨rfl, by simp⟩
  · rw [hw] at h2
    exact absurd h2 (by simp)
  · rw [hw] at h2
    injection h2 with hm2
    rw [h, hm2]
    exact ⟨rfl, by simp⟩
  · rw [hw] at h2
    exact absurd h2 (by simp)

/-- A failing primary compile is caught by the try block whether or not
the auxiliary target preceded it. -/
theorem tryPhase_warp_fail (args : Args) (w : World) (msg : String)
    (hcl : args.buildLlvm = true → w.clangBuildErr = none)
    (hw : w.warpBuildErr = some msg) :
    (tryPhase args w).2 = Outcome.exit 1 ∧
    Event.printMsg (boundaryMsg msg) ∈ (tryPhase args w).1 := by
  rcases tryPhase_cases args w with ⟨_, h⟩ | ⟨hb, m, hc, h⟩ | ⟨_, _, h⟩
  · rw [h]
    exact warpStep_fail args w msg hw
  · rw [hcl hb] at hc
    exact absurd hc (by simp)
  · rw [h]
    exact ⟨(warpStep_fail args w msg hw).1,
      List.mem_cons_of_mem _ (warpStep_fail args w msg hw).2⟩

/-- When the bootstrap gets past the checkout step (the working copy
exists or the clone succeeds), the outcome of the LLVM block is that of
the cmake stage sequence. -/
theorem llvmPhase_snd_reaches_cmake (args : Args) (w : World)
    (hb : args.buildLlvm = true)
    (hr : w.llvmProjectExists = true ∨ w.cloneErr = none) :
    (llvmPhase args w).2 = (llvmStages args w).2 := by
  unfold llvmPhase
  rcases he : w.llvmProjectExists
  · rcases hr with h | h
    · rw [he] at h
      exact absurd h (by simp)
    · simp [hb, h]
  · simp [hb]

/-- A failing configure stage ends the cmake sequence uncaught. -/
theorem llvmStages_snd_gen_fail (args : Args) (w : World) (msg : String)
    (h : w.cmakeGenErr = some msg) :
    (llvmStages args w).2 = some (Outcome.uncaught msg) := by
  unfold llvmStages
  rw [h]

/-- A failing build stage ends the cmake sequence uncaught. -/
theorem llvmStages_snd_build_fail (args : Args) (w : World) (msg : String)
    (h1 : w.cmakeGenErr = none) (h2 : w.cmakeBuildErr = some msg) :
    (llvmStages args w).2 = some (Outcome.uncaught msg) := by
  unfold llvmStages
  rw [h1, h2]

/-- A failing install stage ends the cmake sequence uncaught. -/
theorem llvmStages_snd_install_fail (args : Args) (w : World) (msg : String)
    (h1 : w.cmakeGenErr = none) (h2 : w.cmakeBuildErr = none)
    (h3 : w.cmakeInstallErr = some msg) :
    (llvmStages args w).2 = some (Outcome.uncaught msg) := by
  unfold llvmStages
  rw [h1, h2, h3]

/-- A failing checkout ends the LLVM block uncaught after the single
clone attempt. -/
theorem llvmPhase_clone_fail (args : Args) (w : World) (msg : String)
    (hb : args.buildLlvm = true) (he : w.llvmProjectExists = false)
    (hc : w.cloneErr = some msg) :
    llvmPhase args w = ([cloneEv], some (Outcome.uncaught msg)) := by
  simp [llvmPhase, hb, he, hc]

/-- C2 amended: compile/link failures (of the auxiliary or the primary
target) are the ones the single try/except boundary handles, printing
the Warp build error message with the tool message and exiting 1; a
checkout failure or a failure of any of the three cmake stages
(configure, build, install) arises before that boundary, ends the run
as an uncaught exception, and no message at all is printed for it, in
particular not the boundary message. -/
theorem C2_boundary_scope (args : Args) (w : World) (msg : String) :
    ((msvcPhase args w).2 = none → (llvmPhase args w).2 = none →
      (args.buildLlvm = true → w.clangBuildErr = none) →
      w.warpBuildErr = some msg →
      (run args w).outcome = Outcome.exit 1 ∧
      Event.printMsg (boundaryMsg msg) ∈ (run args w).events) ∧
    ((msvcPhase args w).2 = none → (llvmPhase args w).2 = none →
      args.buildLlvm = true → w.clangBuildErr = some msg →
      (run args w).outcome = Outcome.exit 1 ∧
      Event.printMsg (boundaryMsg msg) ∈ (run args w).events) ∧
    ((run args w).outcome = Outcome.uncaught msg →
      (run args w).events.filter isPrintMsgB = []) ∧
    ((msvcPhase args w).2 = none → args.buildLlvm = true →
      w.llvmProjectExists = false → w.cloneErr = some msg →
      (run args w).outcome = Outcome.uncaught msg) ∧
    ((msvcPhase args w).2 = none → args.buildLlvm = true →
      (w.llvmProjectExists = true ∨ w.cloneErr = none) →
      w.cmakeGenErr = some msg →
      (run args w).outcome = Outcome.uncaught msg) ∧
    ((msvcPhase args w).2 = none → args.buildLlvm = true →
      (w.llvmProjectExists = true ∨ w.cloneErr = none) →
      w.cmakeGenErr = none → w.cmakeBuildErr = some msg →
      (run args w).outcome = Outcome.uncaught msg) ∧
    ((msvcPhase args w).2 = none → args.buildLlvm = true →
      (w.llvmProjectExists = true ∨ w.cloneErr = none) →
      w.cmakeGenErr = none → w.cmakeBuildErr = none →
      w.cmakeInstallErr = some msg →
      (run args w).outcome = Outcome.uncaught msg) := by
  refine ⟨?_, ?_, run_uncaught_no_prints args w msg, ?_, ?_, ?_, ?_⟩
  · intro hm hl hcl hw
    constructor
    · rw [run_full_outcome args w hm hl]
      exact (tryPhase_warp_fail args w msg hcl hw).1
    · rw [run_full_events args w hm hl]
      exact List.mem_cons_of_mem _
        (List.mem_append_right _ (tryPhase_warp_fail args w msg hcl hw).2)
  · intro hm hl hb hc
    have htry : tryPhase args w =
        ([Event.buildDll (clangReq args w), Event.printMsg (boundaryMsg msg)],
         Outcome.exit 1) := by
      rcases tryPhase_cases args w with ⟨hb2, _⟩ | ⟨_, m, hc2, h⟩ | ⟨_, hc2, _⟩
      · rw [hb2] at hb
        exact absurd hb (by simp)
      · rw [hc] at hc2
        injection hc2 with hm2
        rw [h, hm2]
      · rw [hc] at hc2
        exact absurd hc2 (by simp)
    constructor
    · rw [run_full_outcome args w hm hl, htry]
    · rw [run_full_events args w hm hl, htry]
      simp
  · intro hm hb he hc
    have hlp : (llvmPhase args w).2 = some (Outcome.uncaught msg) := by
      rw [llvmPhase_clone_fail args w msg hb he hc]
    exact run_llvm_stop_outcome args w _ hm hlp
  · intro hm hb hr hg
    have hlp : (llvmPhase args w).2 = some (Outcome.uncaught msg) := by
      rw [llvmPhase_snd_reaches_cmake args w hb hr]
      exact llvmStages_snd_gen_fail args w msg hg
    exact run_llvm_stop_outcome args w _ hm hlp
  · intro hm hb hr hg hbe
    have hlp : (llvmPhase args w).2 = some (Outcome.uncaught msg) := by
      rw [llvmPhase_snd_reaches_cmake args w hb hr]
      exact llvmStages_snd_build_fail args w msg hg hbe
    exact run_llvm_stop_outcome args w _ hm hlp
  · intro hm hb hr hg hbe hi
    have hlp : (llvmPhase args w).2 = some (Outcome.uncaught msg) := by
      rw [llvmPhase_snd_reaches_cmake args w hb hr]
      exact llvmStages_snd_install_fail args w msg hg hbe hi
    exact run_llvm_stop_outcome args w _ hm hlp

/-- A world where the checkout of the missing working copy fails. -/
def worldCloneFails : World :=
  { worldLinuxOk with
    llvmProjectExists := false
    cloneErr := some "clone error" }

/-- A world where the cmake configure stage fails. -/
def worldCmakeGenFails : World :=
  { worldLinuxOk with cmakeGenErr := some "configure error" }

/-- A world where the cmake install stage fails. -/
def worldCmakeInstallFails : World :=
  { worldLinuxOk with cmakeInstallErr := some "install error" }

/-- C2 witness: a primary-compile failure is converted by the boundary
into exit 1 with its message, while a checkout failure and a failure of
each of the three cmake stages in a bootstrap run all end uncaught. -/
theorem C2_boundary_scope_witness :
    ((run argsDefault worldWarpFails).outcome = Outcome.exit 1 ∧
      Event.printMsg (boundaryMsg "link error") ∈
        (run argsDefault worldWarpFails).events) ∧
    (run argsLlvm worldCloneFails).outcome = Outcome.uncaught "clone error" ∧
    (run argsLlvm worldCmakeGenFails).outcome =
      Outcome.uncaught "configure error" ∧
    (run argsLlvm worldCmakeBuildFails).outcome =
      Outcome.uncaught "build error" ∧
    (run argsLlvm worldCmakeInstallFails).outcome =
      Outcome.uncaught "install error" := by
  refine ⟨?_, ?_, ?_, ?_, ?_⟩
  · exact (C2_boundary_scope argsDefault worldWarpFails "link error").1
      (by decide) (by decide) (fun _ => by decide) (by decide)
  · exact (C2_boundary_scope argsLlvm worldCloneFails "clone error").2.2.2.1
      (by decide) (by decide) (by decide) (by decide)
  · exact (C2_boundary_scope argsLlvm worldCmakeGenFails
      "configure error").2.2.2.2.1
      (by decide) (by decide) (by decide) (by decide)
  · exact (C2_boundary_scope argsLlvm worldCmakeBuildFails
      "build error").2.2.2.2.2.1
      (by decide) (by decide) (by decide) (by decide) (by decide)
  · exact (C2_boundary_scope argsLlvm worldCmakeInstallFails
      "install error").2.2.2.2.2.2
      (by decide) (by decide) (by decide) (by decide) (by decide) (by decide)

/-- C2 counterexample: in a bootstrap run whose cmake build stage fails,
the failure never reaches the top-level try/except boundary: the run dies
of an uncaught exception and prints no message at all, refuting the claim
that every external-stage failure is surfaced through that boundary with
a printed message. -/
theorem C2_counterexample :
    (run argsLlvm worldCmakeBuildFails).outcome =
      Outcome.uncaught "build error" ∧
    (run argsLlvm worldCmakeBuildFails).events.filter isPrintMsgB = [] := by
  exact ⟨by decide, by decide⟩

/-- C3: the mode argument is not validated: a run whose mode is neither
release nor debug is not rejected, the cmake configure stage is spawned
with the capitalized bogus mode interpolated into CMAKE_BUILD_TYPE, all
three cmake stages and the compile-and-link driver are invoked with the
bogus mode, and the run exits 0. -/
theorem C3_mode_not_validated :
    argsBogus.mode = "bogus" ∧
    (run argsBogus worldLinuxOk).outcome = Outcome.exit 0 ∧
    cmakeStages (run argsBogus worldLinuxOk).events =
      [CmakeStage.configure, CmakeStage.build, CmakeStage.install] ∧
    "CMAKE_BUILD_TYPE=Bogus" ∈ cmake_gen (pyCapitalize argsBogus.mode) ∧
    Event.buildDll (warpReq argsBogus worldLinuxOk) ∈
      (run argsBogus worldLinuxOk).events ∧
    (warpReq argsBogus worldLinuxOk).mode = "bogus" := by
  refine ⟨rfl, by decide, by decide, by decide, by decide, rfl⟩

end BuildLib
